import Mathlib

/-!
Verification development for the cvm-tools CLI (src/main.rs).

The Rust program orchestrates external OS facilities: NBD attachment,
mounting, chroot customization, a swtpm sidecar, and a qemu launch.
We embed the control flow of each function shallowly: every external
command or fallible filesystem operation becomes an injected outcome
(a `Bool` success flag, or a `Nat -> Bool` environment for repeated
observations), and the functions become pure Lean functions that
return an `Except String` result together with the observable
resource state or trace they leave behind.  Error strings are labels
naming the failing step (the Rust code carries captured stderr, which
is dynamic and irrelevant to the control-flow properties proved here).
-/

/-- Error label for a failed modprobe invocation in customize_image. -/
def msgModprobe : String := "modprobe nbd failed"

/-- Error label for a failed qemu-nbd connect invocation. -/
def msgNbdConnect : String := "qemu-nbd connect failed"

/-- Error message of attach_nbd_device when the partition never appears (literal from the source). -/
def msgNbdNotCreated : String := "nbd device not created"

/-- Error label for a failed mountpoint creation. -/
def msgCreateDir : String := "create_dir_all failed"

/-- Error label for a failed mount invocation. -/
def msgMount : String := "mount failed"

/-- Error label for a failed chroot systemctl mask invocation in customize_rootfs. -/
def msgChroot : String := "chroot systemctl mask walinuxagent failed"

/-- Error label for a failed cloud-init datasource file write in customize_cloudinit. -/
def msgCloudCfg : String := "write 90_dpkg.cfg failed"

/-- Error label for a failed umount invocation. -/
def msgUmount : String := "umount failed"

/-- Error label for a failed mountpoint removal. -/
def msgRemoveDir : String := "remove_dir failed"

/-- Error label for a failed qemu-nbd disconnect invocation. -/
def msgNbdDisconnect : String := "qemu-nbd disconnect failed"

/-- Error label used when kill_process finds no pid file to read. -/
def msgNoPidFile : String := "pid file missing"

/-- Error label for a failed kill command invocation. -/
def msgKillCmd : String := "kill command failed"

/-- Error label for a failed swtpm start in start_vtpm. -/
def msgSwtpmStart : String := "swtpm start failed"

/-- Error label for a failed tpm2_createprimary invocation in generate_srk. -/
def msgCreatePrimary : String := "tpm2_createprimary failed"

/-- Error label for a failed tpm2_readpublic invocation in generate_srk. -/
def msgReadPublic : String := "tpm2_readpublic failed"

/-- Prefix of the status line printed by status_vtpm when the pid file is readable. -/
def msgRunningPre : String := "vTPM is running, pid: "

/-- Status line printed by status_vtpm when only the state marker exists. -/
def msgSetupNotRunning : String := "vTPM setup but not running"

/-- Status line printed by status_vtpm when neither pid file nor marker exists. -/
def msgNotSetup : String := "vTPM not setup and not running"

/-!
Readiness poll of attach_nbd_device (src/main.rs lines 214-228).

The Rust loop is

  let mut retries = 0;
  while !Path::new(&partition).exists() && retries < 20 {
      thread::sleep(delay);            // 50 ms
      retries += 1;
  }
  if !Path::new(&partition).exists() { return Err(...); }

We model the external world as `e : Nat -> Bool`, where `e r` is the
observation "the partition node exists" made after `r` sleeps of 50 ms
have elapsed.  The while-condition at `retries = r` and the final
re-check after the loop both observe `e r` (no sleep separates the last
condition evaluation from the final check).  The loop is embedded with
structural fuel `20 - r`, which makes it compute by `rfl`/`decide`.
-/

/-- Fuel-indexed embedding of the readiness while-loop: from retries value
`r` with `fuel` iterations allowed, return the retries value at loop exit. -/
def pollAux (e : Nat → Bool) : Nat → Nat → Nat
  | r, 0 => r
  | r, fuel + 1 => if e r = false then pollAux e (r + 1) fuel else r

/-- Retries value at exit of the readiness loop started at `r` with bound 20. -/
def pollFrom (e : Nat → Bool) (r : Nat) : Nat := pollAux e r (20 - r)

/-- Embedding of attach_nbd_device: the qemu-nbd connect command outcome is
`connectOk`; on success the readiness loop runs and the final existence
check decides between `Except.ok` (returning the number of sleeps
performed) and the resource-not-ready error. -/
def attach_nbd_device (connectOk : Bool) (e : Nat → Bool) : Except String Nat :=
  if connectOk = false then Except.error msgNbdConnect
  else
    let r := pollFrom e 0
    if e r = true then Except.ok r else Except.error msgNbdNotCreated

/-- Outcomes of every fallible step of the customize pipeline
(customize_image and its callees), injected as success flags;
`partitionExistsAt` is the readiness observation environment. -/
structure CustomizeEnv where
  modprobeOk : Bool
  nbdConnectOk : Bool
  partitionExistsAt : Nat → Bool
  createDirOk : Bool
  mountOk : Bool
  chrootMaskOk : Bool
  cloudCfgWriteOk : Bool
  umountOk : Bool
  removeDirOk : Bool
  nbdDisconnectOk : Bool

/-- Observable resource state left behind by customize_image: whether the
NBD device is still connected, whether the mountpoint directory still
exists, and whether the partition is still mounted there. -/
structure ResState where
  nbdConnected : Bool
  mountpointPresent : Bool
  mounted : Bool
deriving DecidableEq, Repr

/-- Embedding of customize_rootfs (src/main.rs lines 231-248): chroot
systemctl mask, then customize_cloudinit's file write; each propagates
its error immediately via the question-mark operator. -/
def customize_rootfs (chrootMaskOk cloudCfgWriteOk : Bool) : Except String Unit :=
  if chrootMaskOk = false then Except.error msgChroot
  else if cloudCfgWriteOk = false then Except.error msgCloudCfg
  else Except.ok ()

/-- Embedding of customize_image (src/main.rs lines 250-301).  Every step
propagates its error via the question-mark operator; the returned
`ResState` records which resources each exit path leaves behind.
Unmount, mountpoint removal and NBD disconnect happen only on the
all-success path, in that order. -/
def customize_image (env : CustomizeEnv) : Except String Unit × ResState :=
  if env.modprobeOk = false then (Except.error msgModprobe, ⟨false, false, false⟩)
  else if env.nbdConnectOk = false then (Except.error msgNbdConnect, ⟨false, false, false⟩)
  else
    match attach_nbd_device true env.partitionExistsAt with
    | Except.error m => (Except.error m, ⟨true, false, false⟩)
    | Except.ok _ =>
      if env.createDirOk = false then (Except.error msgCreateDir, ⟨true, false, false⟩)
      else if env.mountOk = false then (Except.error msgMount, ⟨true, true, false⟩)
      else
        match customize_rootfs env.chrootMaskOk env.cloudCfgWriteOk with
        | Except.error m => (Except.error m, ⟨true, true, true⟩)
        | Except.ok _ =>
          if env.umountOk = false then (Except.error msgUmount, ⟨true, true, true⟩)
          else if env.removeDirOk = false then (Except.error msgRemoveDir, ⟨true, true, false⟩)
          else if env.nbdDisconnectOk = false then (Except.error msgNbdDisconnect, ⟨true, false, false⟩)
          else (Except.ok (), ⟨false, false, false⟩)

/-!
Sidecar (vTPM) state and operations, src/main.rs lines 430-454 and the
tpm subcommand branches of main (lines 587-618).
-/

/-- Filesystem state the sidecar operations read: the pid file contents
(`none` when reading fails because the file is absent) and whether the
state-directory marker file tpm2-00.permall exists. -/
structure TpmState where
  pidFile : Option String
  markerPresent : Bool
deriving DecidableEq, Repr

/-- Embedding of status_vtpm (src/main.rs lines 430-441): a pure function
of pid-file readability and marker presence, with no other inputs and
no effects. -/
def status_vtpm (st : TpmState) : String :=
  match st.pidFile with
  | some pid => msgRunningPre ++ pid
  | none => if st.markerPresent = true then msgSetupNotRunning else msgNotSetup

/-- Embedding of kill_process (src/main.rs lines 443-454): read the pid
file (error when absent), run the kill command on the trimmed pid
(outcome `killCmdOk`).  The third component records the pid passed to
the kill command, when one was.  The function never modifies the
filesystem state: in particular the pid file is not removed. -/
def kill_process (killCmdOk : Bool) (st : TpmState) : Except String Unit × TpmState × Option String :=
  match st.pidFile with
  | none => (Except.error msgNoPidFile, st, none)
  | some pid =>
    if killCmdOk = false then (Except.error msgKillCmd, st, some pid.trim)
    else (Except.ok (), st, some pid.trim)

/-- Embedding of generate_srk (src/main.rs lines 470-498): two tool
invocations, each propagating its error immediately. -/
def generate_srk (createPrimaryOk readPublicOk : Bool) : Except String Unit :=
  if createPrimaryOk = false then Except.error msgCreatePrimary
  else if readPublicOk = false then Except.error msgReadPublic
  else Except.ok ()

/-- Outcomes of the external steps of the tpm setup branch. -/
structure SetupEnv where
  startOk : Bool
  createPrimaryOk : Bool
  readPublicOk : Bool
deriving DecidableEq, Repr

/-- Embedding of the tpm setup branch of main (src/main.rs lines 594-604):
start_vtpm in server mode, then generate_srk, then kill_process, each
followed by the question-mark operator.  The Bool result records
whether the kill step was reached at all. -/
def tpm_setup (env : SetupEnv) (killCmdOk : Bool) (st : TpmState) : Except String Unit × Bool :=
  if env.startOk = false then (Except.error msgSwtpmStart, false)
  else
    match generate_srk env.createPrimaryOk env.readPublicOk with
    | Except.error m => (Except.error m, false)
    | Except.ok _ =>
      match (kill_process killCmdOk st).1 with
      | Except.error m => (Except.error m, true)
      | Except.ok _ => (Except.ok (), true)

/-!
Image acquisition, src/main.rs lines 130-190.
-/

/-- Error label for a failed az group create invocation. -/
def msgAzGroupCreate : String := "az group create failed"

/-- Error label for a failed az disk create invocation. -/
def msgAzDiskCreate : String := "az disk create failed"

/-- Error label for a failed az disk grant-access invocation. -/
def msgAzExport : String := "az disk grant-access failed"

/-- Error label for a failed az group delete invocation. -/
def msgAzDelete : String := "az group delete failed"

/-- Error label for a failed File::create of the destination file. -/
def msgFileCreate : String := "destination file create failed"

/-- Error label for a failed HTTP GET in azure_download_disk. -/
def msgHttpGet : String := "http get failed"

/-- Fuel-indexed embedding of the retry loop of azure_download_disk
(src/main.rs lines 136-147): from retries value `r`, return the total
number of io::copy attempts made.  `ok i` is the outcome of attempt
`i`; a failed attempt is printed and discarded, a successful one
breaks out of the loop. -/
def copyAttemptsAux (ok : Nat → Bool) : Nat → Nat → Nat
  | r, 0 => r
  | r, fuel + 1 => if ok r = true then r + 1 else copyAttemptsAux ok (r + 1) fuel

/-- Number of io::copy attempts azure_download_disk makes, bound 10. -/
def copyAttempts (ok : Nat → Bool) : Nat := copyAttemptsAux ok 0 10

/-- Outcomes of the fallible operations of azure_download_disk. -/
structure DiskDlEnv where
  createFileOk : Bool
  httpGetOk : Bool
  copyOk : Nat → Bool

/-- Embedding of azure_download_disk (src/main.rs lines 130-150): create
the destination file, issue the HTTP GET (each propagating its error),
then run the bounded copy-retry loop whose errors are printed and
discarded, and return Ok unconditionally.  The Nat component is the
number of copy attempts made. -/
def azure_download_disk (env : DiskDlEnv) : Except String Unit × Nat :=
  if env.createFileOk = false then (Except.error msgFileCreate, 0)
  else if env.httpGetOk = false then (Except.error msgHttpGet, 0)
  else (Except.ok (), copyAttempts env.copyOk)

/-- Outcomes of the external steps of download_image, plus whether the
destination path already exists. -/
structure FetchEnv where
  destExists : Bool
  groupCreateOk : Bool
  diskCreateOk : Bool
  exportOk : Bool
  dl : DiskDlEnv
  deleteGroupOk : Bool

/-- Observable trace of download_image: how many az subprocesses were
spawned, how many HTTP requests were made, and whether the destination
file was written to (File::create truncates it). -/
structure FetchTrace where
  azCalls : Nat
  httpCalls : Nat
  destWritten : Bool
deriving DecidableEq, Repr

/-- Embedding of download_image (src/main.rs lines 171-190): return Ok
immediately when `force` is false and the destination exists; otherwise
run the az create/create/export sequence, azure_download_disk, and the
az group delete, each propagating its error. -/
def download_image (env : FetchEnv) (force : Bool) : Except String Unit × FetchTrace :=
  if force = false ∧ env.destExists = true then (Except.ok (), ⟨0, 0, false⟩)
  else if env.groupCreateOk = false then (Except.error msgAzGroupCreate, ⟨1, 0, false⟩)
  else if env.diskCreateOk = false then (Except.error msgAzDiskCreate, ⟨2, 0, false⟩)
  else if env.exportOk = false then (Except.error msgAzExport, ⟨3, 0, false⟩)
  else
    match azure_download_disk env.dl with
    | (Except.error m, _) =>
      (Except.error m, ⟨3, if env.dl.createFileOk = true then 1 else 0, env.dl.createFileOk⟩)
    | (Except.ok _, _) =>
      if env.deleteGroupOk = false then (Except.error msgAzDelete, ⟨4, 1, true⟩)
      else (Except.ok (), ⟨4, 1, true⟩)

/-!
SizeLimitedReader, src/main.rs lines 86-128.  The progress bar is pure
UI and is not modelled.  A read call receives the buffer length and the
behavior of the inner reader, `innerRead n` being the number of bytes
the inner reader returns when asked for at most `n` bytes; a
well-behaved Read implementation satisfies `innerRead n <= n`.
-/

/-- State of a SizeLimitedReader: the remaining byte budget. -/
structure SizeLimitedReader where
  remaining_bytes : Nat
deriving DecidableEq, Repr

/-- Embedding of SizeLimitedReader::new (src/main.rs lines 93-107). -/
def SizeLimitedReader.new (size : Nat) : SizeLimitedReader :=
  { remaining_bytes := size }

/-- Embedding of SizeLimitedReader::read (src/main.rs lines 111-127):
return 0 when the budget is exhausted, otherwise forward to the inner
reader a slice of length min(buffer length, remaining budget) and
subtract what it delivered. -/
def SizeLimitedReader.read (st : SizeLimitedReader) (bufLen : Nat) (innerRead : Nat → Nat) :
    Nat × SizeLimitedReader :=
  if st.remaining_bytes = 0 then (0, st)
  else
    let bytes_to_read := min bufLen st.remaining_bytes
    let bytes_read := innerRead bytes_to_read
    (bytes_read, { remaining_bytes := st.remaining_bytes - bytes_read })

/-- A sequence of read calls against a SizeLimitedReader: each list entry
is a buffer length together with the inner reader's behavior on that
call.  Returns the total number of bytes delivered and the final state. -/
def readMany : SizeLimitedReader → List (Nat × (Nat → Nat)) → Nat × SizeLimitedReader
  | st, [] => (0, st)
  | st, c :: cs =>
    let r1 := SizeLimitedReader.read st c.1 c.2
    let r2 := readMany r1.2 cs
    (r1.1 + r2.1, r2.2)

/-- Byte budget used in the download path: 4 * 1024^3 bytes. -/
def downloadBudget : Nat := 4 * 1024 ^ 3

/-!
VM launch, src/main.rs lines 329-398, and the vm start branch of main,
lines 623-646, including the clap argument access.
-/

/-- Path of the writable firmware-variables template copied per launch. -/
def ovmfTemplatePath : String := "/usr/share/OVMF/OVMF_VARS_4M.ms.fd"

/-- Scratch path the template is copied to before each launch. -/
def ovmfCopyPath : String := "/tmp/OVMF_VARS.ms.fd"

/-- Contents of the firmware-variables template and of its scratch copy
(`none` when the scratch path does not exist yet). -/
structure VarsFs where
  template : String
  scratch : Option String
deriving DecidableEq, Repr

/-- Embedding of copy_ovmf_vars (src/main.rs lines 329-334): copy the
template to the scratch path and return that path. -/
def copy_ovmf_vars (fs : VarsFs) : VarsFs × String :=
  ({ template := fs.template, scratch := some fs.template }, ovmfCopyPath)

/-- The pflash unit=1 drive argument of the qemu invocation for a given
firmware-variables file path. -/
def pflashVarsArg (p : String) : String :=
  "if=pflash,format=raw,unit=1,file=" ++ p

/-- The qemu-system-x86_64 argument list built by start_vm
(src/main.rs lines 347-383), with the firmware-variables file path as
built by the code. -/
def qemuArgs (image cloudinitDrive vtpmSocket ovmfVars : String) : List String :=
  ["--cpu", "host", "-machine", "type=q35,accel=kvm", "-m", "2048",
   "-daemonize", "-pidfile", "/tmp/qemu_pid",
   "-qmp", "unix:/tmp/qemu-qmp.sock,server=on,wait=off",
   "-snapshot",
   "-netdev", "id=net00,type=user,hostfwd=tcp::2222-:22",
   "-device", "virtio-net-pci,netdev=net00",
   "-chardev", "socket,id=chrtpm,path=" ++ vtpmSocket ++ ".ctrl",
   "-tpmdev", "emulator,id=tpm0,chardev=chrtpm",
   "-device", "tpm-tis,tpmdev=tpm0",
   "-drive", "if=virtio,format=raw,file=" ++ image,
   "-drive", "if=virtio,format=raw,file=" ++ cloudinitDrive,
   "-drive", "if=pflash,format=raw,unit=0,file=/usr/share/OVMF/OVMF_CODE_4M.ms.fd,readonly=on",
   "-drive", pflashVarsArg ovmfVars]

/-- Embedding of start_vm's firmware handling (src/main.rs lines 336-398):
copy the template to the scratch path, then build the qemu argument
list pointing the unit=1 pflash drive at the scratch copy.  Returns
the filesystem state after the copy and the argument list handed to
the hypervisor. -/
def start_vm (fs : VarsFs) (image cloudinitDrive vtpmSocket : String) : VarsFs × List String :=
  let p := copy_ovmf_vars fs
  (p.1, qemuArgs image cloudinitDrive vtpmSocket p.2)

/-- The firmware-variables filesystem after `n` successive VM launches. -/
def startVmIter (image cloudinitDrive vtpmSocket : String) : Nat → VarsFs → VarsFs
  | 0, fs => fs
  | n + 1, fs => startVmIter image cloudinitDrive vtpmSocket n (start_vm fs image cloudinitDrive vtpmSocket).1

/-- Panic message pattern of clap's ArgMatches::get_one when the accessed
argument id was never defined on the command. -/
def msgArgMismatch : String := "Mismatch between definition and access of id image"

/-- Panic message of Option::expect in the vm start branch. -/
def msgExpectRequired : String := "required"

/-- Error label for a failed cloud-localds invocation in create_cloudinit_drive. -/
def msgCloudLocalds : String := "cloud-localds failed"

/-- Error label for a failed firmware-variables copy in start_vm. -/
def msgCopyVars : String := "failed to copy OVMF"

/-- Error label for a nonzero qemu exit at launch. -/
def msgQemu : String := "qemu failed"

/-- Result of a clap ArgMatches::get_one access: the value when the
argument is defined and was provided, `missing` when defined but not
provided, and `mismatchPanic` when the accessed id was never defined
(clap panics in that case). -/
inductive ClapLookup where
  | found (v : String)
  | missing
  | mismatchPanic
deriving DecidableEq, Repr

/-- Argument ids defined on the vm start subcommand by cli()
(src/main.rs lines 535-539): the single positional argument IMAGE. -/
def vmStartArgIds : List String := ["IMAGE"]

/-- The id the vm start branch of main accesses (src/main.rs line 628). -/
def idAccessedByVmStart : String := "image"

/-- Embedding of clap's ArgMatches::get_one (panics when the id is not
among the defined argument ids). -/
def get_one (defined : List String) (provided : String → Option String) (id : String) : ClapLookup :=
  if defined.contains id then
    match provided id with
    | some v => ClapLookup.found v
    | none => ClapLookup.missing
  else ClapLookup.mismatchPanic

/-- Outcome of running the vm start branch: a Rust panic, an error
propagated to main, or a successful daemonized launch. -/
inductive VmStartOutcome where
  | panicked (msg : String)
  | failed (msg : String)
  | launched
deriving DecidableEq, Repr

/-- Outcomes of the external steps of the vm start branch that would run
after the argument access. -/
structure VmEnv where
  cloudLocaldsOk : Bool
  copyVarsOk : Bool
  qemuOk : Bool
deriving DecidableEq, Repr

/-- Embedding of the vm start branch of main (src/main.rs lines 625-646):
access the argument with id accessed by the code, expect it present,
then create the cloud-init drive, copy the firmware variables and run
qemu, each failure propagating.  `provided` maps a defined argument id
to the value the command line supplied for it. -/
def vm_start_branch (provided : String → Option String) (env : VmEnv) : VmStartOutcome :=
  match get_one vmStartArgIds provided idAccessedByVmStart with
  | ClapLookup.mismatchPanic => VmStartOutcome.panicked msgArgMismatch
  | ClapLookup.missing => VmStartOutcome.panicked msgExpectRequired
  | ClapLookup.found _ =>
    if env.cloudLocaldsOk = false then VmStartOutcome.failed msgCloudLocalds
    else if env.copyVarsOk = false then VmStartOutcome.failed msgCopyVars
    else if env.qemuOk = false then VmStartOutcome.failed msgQemu
    else VmStartOutcome.launched

/-!
Theorems.
-/

/-- Customize environment in which every external step succeeds, the
partition node is visible immediately, but the chroot systemctl mask
step (the first customization step of customize_rootfs) exits nonzero. -/
def envChrootFail : CustomizeEnv :=
  ⟨true, true, fun _ => true, true, true, false, true, true, true, true⟩

/-- C1: the claim says that when the run-customization-steps stage fails,
customize_image still attempts unmount, mountpoint removal and NBD
disconnect, so that the mountpoint is absent and the device detached
after the error returns.  The code does not: customize_rootfs's error
is propagated by the question-mark operator immediately, and on that
path the filesystem is still mounted, the mountpoint directory still
present and the NBD device still connected. -/
theorem customize_image_no_cleanup_on_rootfs_failure :
    (customize_image envChrootFail).1 = Except.error msgChroot
    ∧ (customize_image envChrootFail).2.nbdConnected = true
    ∧ (customize_image envChrootFail).2.mountpointPresent = true
    ∧ (customize_image envChrootFail).2.mounted = true :=
  ⟨rfl, rfl, rfl, rfl⟩

/-- C5: status_vtpm realizes the exhaustive truth table over pid-file
presence and marker presence: (absent, absent) reports not-setup,
(absent, present) reports setup-but-not-running, and (present, any
marker state) reports running with the pid read from the file.  The
embedding is a pure function of those two inputs alone. -/
theorem status_vtpm_truth_table (pid : String) (marker : Bool) :
    status_vtpm ⟨none, false⟩ = msgNotSetup
    ∧ status_vtpm ⟨none, true⟩ = msgSetupNotRunning
    ∧ status_vtpm ⟨some pid, marker⟩ = msgRunningPre ++ pid :=
  ⟨rfl, rfl, rfl⟩

/-- Demo pid-file contents. -/
def pidW : String := "1234"

/-- Demo sidecar state: pid file present, marker present. -/
def stRunningDemo : TpmState := ⟨some pidW, true⟩

/-- C2 counterexample: after a successful tpm kill on a provisioned,
running sidecar, the pid file is still present (kill_process never
removes it) and a subsequent status query reports running, not
setup-but-not-running. -/
theorem tpm_kill_then_status_counterexample :
    (kill_process true stRunningDemo).1 = Except.ok ()
    ∧ (kill_process true stRunningDemo).2.1.pidFile = some pidW
    ∧ status_vtpm (kill_process true stRunningDemo).2.1 ≠ msgSetupNotRunning :=
  ⟨rfl, rfl, by decide⟩

/-- C2 amended: tpm kill reads the pid from the pid file and passes its
trimmed contents to the kill command, but does not remove the pid
file; the sidecar state is unchanged, so a subsequent status query
still reports running with that pid. -/
theorem tpm_kill_no_pid_file_removal (st : TpmState) (pid : String) (killOk : Bool)
    (hp : st.pidFile = some pid) (hk : killOk = true) :
    kill_process killOk st = (Except.ok (), st, some pid.trim)
    ∧ status_vtpm (kill_process killOk st).2.1 = msgRunningPre ++ pid := by
  subst hk
  obtain ⟨pf, mk⟩ := st
  simp only [TpmState.pidFile] at hp
  subst hp
  simp [kill_process, status_vtpm]

/-- C2 witness: the amended theorem applied at a concrete running state. -/
theorem tpm_kill_no_pid_file_removal_witness :
    kill_process true stRunningDemo = (Except.ok (), stRunningDemo, some pidW.trim)
    ∧ status_vtpm (kill_process true stRunningDemo).2.1 = msgRunningPre ++ pidW :=
  tpm_kill_no_pid_file_removal stRunningDemo pidW true rfl rfl

/-- Setup environment in which swtpm starts but tpm2_createprimary fails. -/
def envSrkFail : SetupEnv := ⟨true, false, true⟩

/-- Setup environment in which every provisioning step succeeds. -/
def envSetupOk : SetupEnv := ⟨true, true, true⟩

/-- C3 counterexample: when key generation fails, the tpm setup branch
propagates the error without ever reaching the kill step (so the
sidecar is not stopped), and when the kill step is reached and fails,
its error is propagated (fatal), contradicting both halves of the
claim. -/
theorem tpm_setup_counterexample :
    (tpm_setup envSrkFail true stRunningDemo).1 = Except.error msgCreatePrimary
    ∧ (tpm_setup envSrkFail true stRunningDemo).2 = false
    ∧ (tpm_setup envSetupOk false stRunningDemo).1 = Except.error msgKillCmd :=
  ⟨rfl, rfl, rfl⟩

/-- C3 amended: the tpm setup branch reaches the kill step exactly when
the swtpm start and both key-generation invocations succeed; if
tpm2_createprimary fails the error propagates with no kill attempt;
and when the kill step is reached, a kill failure is propagated as the
branch's error (fatal, not best-effort). -/
theorem tpm_setup_kill_only_after_srk (env : SetupEnv) (killOk : Bool) (st : TpmState) (m : String) :
    ((tpm_setup env killOk st).2 = true
      ↔ (env.startOk = true ∧ env.createPrimaryOk = true ∧ env.readPublicOk = true))
    ∧ (env.startOk = true → env.createPrimaryOk = false →
        tpm_setup env killOk st = (Except.error msgCreatePrimary, false))
    ∧ ((kill_process killOk st).1 = Except.error m →
        (tpm_setup env killOk st).2 = true →
        (tpm_setup env killOk st).1 = Except.error m) := by
  obtain ⟨s, c, r⟩ := env
  cases s <;> cases c <;> cases r <;>
    cases hk : (kill_process killOk st).1 <;>
      simp_all [tpm_setup, generate_srk]

/-- C3 witness: the amended theorem applied at a concrete environment in
which all provisioning steps succeed, showing the kill step is reached. -/
theorem tpm_setup_kill_only_after_srk_witness :
    (tpm_setup envSetupOk true stRunningDemo).2 = true :=
  (tpm_setup_kill_only_after_srk envSetupOk true stRunningDemo msgKillCmd).1.mpr
    ⟨rfl, rfl, rfl⟩

/-- Exit value of the readiness loop never exceeds start plus fuel. -/
theorem pollAux_le (e : Nat → Bool) : ∀ fuel r, pollAux e r fuel ≤ r + fuel := by
  intro fuel
  induction fuel with
  | zero => intro r; simp [pollAux]
  | succ fuel ih =>
    intro r
    by_cases h : e r = false
    · simp only [pollAux, h, if_true]
      have := ih (r + 1)
      omega
    · simp [pollAux, h]

/-- When the observation first becomes true at index `k` within the fuel
budget, the readiness loop exits exactly at `k`. -/
theorem pollAux_first (e : Nat → Bool) :
    ∀ fuel r k, r ≤ k → k ≤ r + fuel → e k = true →
      (∀ j, r ≤ j → j < k → e j = false) → pollAux e r fuel = k := by
  intro fuel
  induction fuel with
  | zero =>
    intro r k h1 h2 _ _
    simp only [pollAux]
    omega
  | succ fuel ih =>
    intro r k h1 h2 hk hj
    by_cases h : e r = false
    · have hrk : r < k := by
        rcases Nat.lt_or_ge r k with hlt | hge
        · exact hlt
        · have : r = k := by omega
          rw [this, hk] at h
          exact absurd h (by decide)
      simp only [pollAux, h, if_true]
      exact ih (r + 1) k (by omega) (by omega) hk (fun j hj1 hj2 => hj j (by omega) hj2)
    · have : r = k := by
        by_contra hne
        have hrk : r < k := by omega
        exact h (hj r (Nat.le_refl r) hrk)
      subst this
      simp [pollAux, h]

/-- When the observation is false throughout the fuel budget, the
readiness loop runs to exhaustion. -/
theorem pollAux_all_false (e : Nat → Bool) :
    ∀ fuel r, (∀ j, r ≤ j → j < r + fuel → e j = false) → pollAux e r fuel = r + fuel := by
  intro fuel
  induction fuel with
  | zero => intro r _; simp [pollAux]
  | succ fuel ih =>
    intro r h
    have h0 : e r = false := h r (Nat.le_refl r) (by omega)
    simp only [pollAux, h0, if_true]
    have := ih (r + 1) (fun j hj1 hj2 => h j (by omega) (by omega))
    omega

/-- C4: the readiness poll of attach_nbd_device performs at most 20
sleeps of 50 ms; when the partition node first exists at observation
k < 20 the poll exits at exactly k sleeps and attachment succeeds
without exhausting the budget; when the node exists at no observation
within the budget, attachment fails with the resource-not-ready error
instead of looping further. -/
theorem attach_nbd_device_poll_contract (e : Nat → Bool) :
    pollFrom e 0 ≤ 20
    ∧ (∀ k, k < 20 → e k = true → (∀ j, j < k → e j = false) →
        pollFrom e 0 = k ∧ attach_nbd_device true e = Except.ok k)
    ∧ ((∀ j, j ≤ 20 → e j = false) →
        attach_nbd_device true e = Except.error msgNbdNotCreated) := by
  refine ⟨?_, ?_, ?_⟩
  · have := pollAux_le e 20 0
    simpa [pollFrom] using this
  · intro k hk20 hek hbefore
    have hpoll : pollFrom e 0 = k := by
      have := pollAux_first e 20 0 k (Nat.zero_le k) (by omega) hek
        (fun j _ hj2 => hbefore j hj2)
      simpa [pollFrom] using this
    refine ⟨hpoll, ?_⟩
    simp [attach_nbd_device, hpoll, hek]
  · intro hall
    have hpoll : pollFrom e 0 = 20 := by
      have := pollAux_all_false e 20 0 (fun j _ hj2 => hall j (by omega))
      simpa [pollFrom] using this
    simp [attach_nbd_device, hpoll, hall 20 (Nat.le_refl 20)]

/-- Demo readiness environment: the partition node appears after 3 sleeps. -/
def eDemo : Nat → Bool := fun i => decide (3 ≤ i)

/-- C4 witness: the poll contract applied to an environment in which the
node appears at observation 3. -/
theorem attach_nbd_device_poll_contract_witness :
    pollFrom eDemo 0 = 3 ∧ attach_nbd_device true eDemo = Except.ok 3 :=
  (attach_nbd_device_poll_contract eDemo).2.1 3 (by decide) (by decide) (by decide)

/-- C6: every invocation of the vm start branch panics with clap's
argument-id mismatch: the subcommand defines the positional argument
id IMAGE, but the branch accesses id image, so ArgMatches::get_one
panics before the disk image path is ever looked at and before any
qemu process (and hence any pid file) can be created.  This holds for
every provided argument value and every environment, in particular
when the disk image path does not exist. -/
theorem vm_start_branch_always_panics (provided : String → Option String) (env : VmEnv) :
    vm_start_branch provided env = VmStartOutcome.panicked msgArgMismatch := by
  have hc : ¬ idAccessedByVmStart ∈ vmStartArgIds := by decide
  simp [vm_start_branch, get_one, hc]

/-- C7: image fetch with force false and an existing destination returns
success immediately: no az subprocess is spawned, no HTTP request is
made, and the destination file is not written to. -/
theorem download_image_skip (env : FetchEnv) (force : Bool)
    (hf : force = false) (hd : env.destExists = true) :
    download_image env force = (Except.ok (), ⟨0, 0, false⟩) := by
  simp [download_image, hf, hd]

/-- Demo fetch environment with an existing destination. -/
def fetchEnvDemo : FetchEnv := ⟨true, true, true, true, ⟨true, true, fun _ => true⟩, true⟩

/-- C7 witness: the skip theorem applied at a concrete environment. -/
theorem download_image_skip_witness :
    download_image fetchEnvDemo false = (Except.ok (), ⟨0, 0, false⟩) :=
  download_image_skip fetchEnvDemo false rfl rfl

/-- The firmware-variables template is untouched by any number of launches. -/
theorem startVmIter_template (img ci sock : String) :
    ∀ n fs, (startVmIter img ci sock n fs).template = fs.template := by
  intro n
  induction n with
  | zero => intro fs; rfl
  | succ n ih =>
    intro fs
    simp only [startVmIter]
    rw [ih]
    simp [start_vm, copy_ovmf_vars]

/-- C8: each VM launch copies the firmware-variables template to the
scratch path before invoking the hypervisor (the scratch file holds the
template contents afterward), the template contents are unchanged after
any number of launches, and the qemu argument list points the writable
pflash drive at the scratch path, which differs from the template path. -/
theorem start_vm_fresh_vars_copy (fs : VarsFs) (img ci sock : String) (n : Nat) :
    (startVmIter img ci sock n fs).template = fs.template
    ∧ (start_vm fs img ci sock).1.scratch = some fs.template
    ∧ (start_vm fs img ci sock).2 = qemuArgs img ci sock ovmfCopyPath
    ∧ pflashVarsArg ovmfCopyPath ∈ (start_vm fs img ci sock).2
    ∧ ovmfCopyPath ≠ ovmfTemplatePath := by
  refine ⟨startVmIter_template img ci sock n fs, rfl, rfl, ?_, by decide⟩
  simp [start_vm, copy_ovmf_vars, qemuArgs]

/-- Attempt count of the copy-retry loop never exceeds start plus fuel. -/
theorem copyAttemptsAux_le (ok : Nat → Bool) : ∀ fuel r, copyAttemptsAux ok r fuel ≤ r + fuel := by
  intro fuel
  induction fuel with
  | zero => intro r; simp [copyAttemptsAux]
  | succ fuel ih =>
    intro r
    by_cases h : ok r = true
    · simp only [copyAttemptsAux, h, if_true]
      omega
    · simp [copyAttemptsAux, h]
      have := ih (r + 1)
      omega

/-- When every copy attempt fails, the retry loop makes start plus fuel
attempts. -/
theorem copyAttemptsAux_all_fail (ok : Nat → Bool) (h : ∀ i, ok i = false) :
    ∀ fuel r, copyAttemptsAux ok r fuel = r + fuel := by
  intro fuel
  induction fuel with
  | zero => intro r; simp [copyAttemptsAux]
  | succ fuel ih =>
    intro r
    simp [copyAttemptsAux, h r]
    have := ih (r + 1)
    omega

/-- C9: azure_download_disk makes at most 10 copy attempts, and when the
file creation and HTTP request succeed but every copy attempt fails,
it still returns Ok after exactly 10 attempts: copy errors are printed
and discarded, never propagated. -/
theorem azure_download_disk_ok_despite_failures (env : DiskDlEnv)
    (h1 : env.createFileOk = true) (h2 : env.httpGetOk = true)
    (h3 : ∀ i, env.copyOk i = false) :
    azure_download_disk env = (Except.ok (), 10)
    ∧ ∀ e : DiskDlEnv, (azure_download_disk e).2 ≤ 10 := by
  constructor
  · have h10 : copyAttempts env.copyOk = 10 := by
      have := copyAttemptsAux_all_fail env.copyOk h3 10 0
      simpa [copyAttempts] using this
    simp [azure_download_disk, h1, h2, h10]
  · intro e
    by_cases hc : e.createFileOk = false
    · simp [azure_download_disk, hc]
    · by_cases hh : e.httpGetOk = false
      · simp [azure_download_disk, hc, hh]
      · have hle : copyAttempts e.copyOk ≤ 10 := by
          have := copyAttemptsAux_le e.copyOk 10 0
          simpa [copyAttempts] using this
        simp [azure_download_disk, hc, hh, hle]

/-- Download environment whose ten copy attempts all fail. -/
def dlEnvAllFail : DiskDlEnv := ⟨true, true, fun _ => false⟩

/-- C9 witness: the theorem applied to the all-failures environment. -/
theorem azure_download_disk_ok_despite_failures_witness :
    azure_download_disk dlEnvAllFail = (Except.ok (), 10) :=
  (azure_download_disk_ok_despite_failures dlEnvAllFail rfl rfl (fun _ => rfl)).1

/-- A single read returns at most min(buffer length, remaining budget). -/
theorem slRead_le (st : SizeLimitedReader) (b : Nat) (f : Nat → Nat) (hf : ∀ n, f n ≤ n) :
    (st.read b f).1 ≤ min b st.remaining_bytes := by
  by_cases h : st.remaining_bytes = 0
  · simp [SizeLimitedReader.read, h]
  · simp only [SizeLimitedReader.read, h, if_false]
    exact hf _

/-- A single read conserves the budget: new remaining plus delivered
equals old remaining, so the subtraction never underflows. -/
theorem slRead_conserve (st : SizeLimitedReader) (b : Nat) (f : Nat → Nat) (hf : ∀ n, f n ≤ n) :
    (st.read b f).2.remaining_bytes + (st.read b f).1 = st.remaining_bytes := by
  by_cases h : st.remaining_bytes = 0
  · simp [SizeLimitedReader.read, h]
  · have hle : f (min b st.remaining_bytes) ≤ st.remaining_bytes :=
      le_trans (hf _) (Nat.min_le_right _ _)
    simp only [SizeLimitedReader.read, h, if_false]
    omega

/-- Conservation extends to any sequence of well-behaved reads. -/
theorem readMany_conserve (cs : List (Nat × (Nat → Nat))) :
    ∀ st : SizeLimitedReader, (∀ c ∈ cs, ∀ n, c.2 n ≤ n) →
      (readMany st cs).2.remaining_bytes + (readMany st cs).1 = st.remaining_bytes := by
  induction cs with
  | nil => intro st _; simp [readMany]
  | cons c cs ih =>
    intro st hcs
    have hc : ∀ n, c.2 n ≤ n := hcs c (List.mem_cons_self c cs)
    have hcs2 : ∀ d ∈ cs, ∀ n, d.2 n ≤ n := fun d hd => hcs d (List.mem_cons_of_mem c hd)
    have h1 := slRead_conserve st c.1 c.2 hc
    have h2 := ih (SizeLimitedReader.read st c.1 c.2).2 hcs2
    simp only [readMany]
    omega

/-- C10: SizeLimitedReader's read returns at most min(buffer length,
remaining budget) bytes; the budget is conserved exactly (no
underflow); a reader with zero budget returns 0 and is unchanged; and
the total delivered over any sequence of well-behaved reads is at most
the size the reader was constructed with. -/
theorem size_limited_reader_budget (st : SizeLimitedReader) (bufLen : Nat) (f : Nat → Nat)
    (hf : ∀ n, f n ≤ n) (size : Nat) (calls : List (Nat × (Nat → Nat)))
    (hcalls : ∀ c ∈ calls, ∀ n, c.2 n ≤ n) :
    (st.read bufLen f).1 ≤ min bufLen st.remaining_bytes
    ∧ (st.read bufLen f).2.remaining_bytes + (st.read bufLen f).1 = st.remaining_bytes
    ∧ (st.remaining_bytes = 0 → st.read bufLen f = (0, st))
    ∧ (readMany (SizeLimitedReader.new size) calls).1 ≤ size := by
  refine ⟨slRead_le st bufLen f hf, slRead_conserve st bufLen f hf, ?_, ?_⟩
  · intro h0
    simp [SizeLimitedReader.read, h0]
  · have hcons := readMany_conserve calls (SizeLimitedReader.new size) hcalls
    have hs : (SizeLimitedReader.new size).remaining_bytes = size := rfl
    omega

/-- Demo read sequence: a faithful inner reader, then one returning 0. -/
def callsDemo : List (Nat × (Nat → Nat)) := [(3, fun n => n), (7, fun _ => 0)]

/-- C10 witness: the budget theorem applied to a reader of size 5 and the
demo read sequence. -/
theorem size_limited_reader_budget_witness :
    (readMany (SizeLimitedReader.new 5) callsDemo).1 ≤ 5 :=
  (size_limited_reader_budget ⟨5⟩ 3 (fun n => n) (fun n => Nat.le_refl n) 5 callsDemo
    (by
      intro c hc n
      simp [callsDemo] at hc
      rcases hc with hc | hc <;> subst hc <;> simp)).2.2.2
